import Mathlib

/-!
Shallow embedding of the travel-expense-tracker core: the IndexedDB-backed
record store (src/db.js) and the conversion, validation and aggregation
layer of the application module (src/unnamed/part_000).

JavaScript numbers are modelled as rationals (ℚ); all amounts in the
program flow through `Number(...)` and the arithmetic used (addition,
multiplication, `Math.round`, division by 100) is exact on the inputs the
validators admit.  `Math.round x` is `⌊x + 1/2⌋` (round half toward +∞).
Strings are Lean `String`s; `s.slice(0, n)` is `jsSlice s n` (take the
first `n` characters).  The IndexedDB object stores are modelled as lists
of records keyed by their `id`; a transaction is a single pure state
transition `Store → Store` (or `Store → Store × Option String` when the
handler can reject), which makes the all-or-nothing contract of an atomic
unit structural: an operation either returns the fully updated store or
the unchanged input store together with an error message.
-/

namespace TravelExpense

/-- JS `Math.round`: round half toward positive infinity. -/
def jsRound (x : ℚ) : ℤ := ⌊x + 1/2⌋

/-- JS `s.slice(0, n)` on a string: the first `n` characters. -/
def jsSlice (s : String) (n : Nat) : String := String.mk (s.data.take n)

/-- Split a character list on a separator character, JS
`String.prototype.split` style: a trailing separator yields a final empty
group and the empty input yields one empty group. -/
def chSplit (sep : Char) : List Char → List (List Char)
  | [] => [[]]
  | c :: rest =>
    if c = sep then [] :: chSplit sep rest
    else
      match chSplit sep rest with
      | [] => [[c]]
      | g :: gs => (c :: g) :: gs

/-- JS `s.split(sep)` for a one-character separator. -/
def jsSplitOn (s : String) (sep : Char) : List String :=
  (chSplit sep s.data).map String.mk

/-- JS `s.trim()`: strip whitespace from both ends. -/
def jsTrim (s : String) : String :=
  String.mk (((s.data.dropWhile Char.isWhitespace).reverse.dropWhile Char.isWhitespace).reverse)

/-- From src/unnamed/part_000 `roundBaseAmount`: JPY rounds to an integer,
every other base currency rounds to two decimals via
`Math.round(raw * 100) / 100`. -/
def roundBaseAmount (raw : ℚ) (baseCurrency : String) : ℚ :=
  if baseCurrency = "JPY" then (jsRound raw : ℚ)
  else (jsRound (raw * 100) : ℚ) / 100

/-- Decimal places the code's rounding uses for a base currency:
0 for the zero-decimal currency JPY, 2 otherwise. -/
def decimalsFor (currency : String) : Nat :=
  if currency = "JPY" then 0 else 2

/-- Standard half-up rounding of `x` to `d` decimal places. -/
def roundHalfUpTo (x : ℚ) (d : Nat) : ℚ :=
  ((⌊x * 10 ^ d + 1/2⌋ : ℤ) : ℚ) / 10 ^ d

/-- A Trip record, as built by `collectTripFormData` and stored in the
`trips` object store (keyPath `id`). -/
structure Trip where
  id : String
  name : String
  startDate : String
  endDate : String
  baseCurrency : String
  currencies : List String
  budgetEnabled : Bool
  budgetAmountBase : ℚ
  dailyBudgetAmountBase : Option ℚ
  createdAt : ℚ
deriving DecidableEq, Repr

/-- An Expense record, as built by `collectExpenseFormData` and stored in
the `expenses` object store (keyPath `id`, index on `tripId`). -/
structure Expense where
  id : String
  tripId : String
  dateTime : String
  amountOriginal : ℚ
  currency : String
  fxRateToBase : ℚ
  amountBase : ℚ
  category : String
  payment : String
  note : String
  paidBy : String
  location : String
  tags : List String
  createdAt : ℚ
  updatedAt : ℚ
deriving DecidableEq, Repr

/-- The durable state of the four object stores of src/db.js: `meta` holds
the single `schemaVersion` row, `settings` holds the `categories` and
`paymentMethods` rows (a `none` field means the row is absent), and
`trips` / `expenses` hold the records keyed by `id`. -/
structure Store where
  schemaVersion : Option String
  categories : Option (List String)
  paymentMethods : Option (List String)
  trips : List Trip
  expenses : List Expense
deriving DecidableEq, Repr

/-- Embeds `SCHEMA_VERSION` from src/db.js. -/
def SCHEMA_VERSION : String := "1.0.0"

/-- Embeds `DEFAULT_SETTINGS.categories` from src/db.js. -/
def defaultCategories : List String :=
  ["Flights", "Lodging", "Local transport", "Food & drinks", "Attractions",
   "Shopping", "SIM/Internet", "Fees (ATM/baggage/etc.)", "Misc", "Souvenirs"]

/-- Embeds `DEFAULT_SETTINGS.paymentMethods` from src/db.js. -/
def defaultPaymentMethods : List String := ["Cash", "Wise", "Apple Pay", "Other"]

/-- IndexedDB `put`: insert-or-replace the record whose key equals the new
record's key. -/
def putByKey {α : Type} (key : α → String) (x : α) : List α → List α
  | [] => [x]
  | y :: ys => if key y = key x then x :: ys else y :: putByKey key x ys

/-- Embeds `getTripById` from src/db.js: `tx.objectStore('trips').get(id)`. -/
def getTripById (s : Store) (id : String) : Option Trip :=
  s.trips.find? (fun t => t.id = id)

/-- Embeds `getExpensesByTrip` from src/db.js: range scan of the `tripId` index. -/
def getExpensesByTrip (s : Store) (tripId : String) : List Expense :=
  s.expenses.filter (fun e => e.tripId = tripId)

/-- Embeds `upsertTrip` from src/db.js: `tx.objectStore('trips').put(trip)`. -/
def upsertTrip (s : Store) (t : Trip) : Store :=
  { s with trips := putByKey Trip.id t s.trips }

/-- Embeds `deleteTripCascade` from src/db.js: one readwrite transaction over
`trips` and `expenses` that deletes the trip row and, walking a cursor over
the `tripId` index, deletes every expense whose `tripId` matches.  The
whole transaction is a single state transition, so the trip row and the
matching expense rows disappear together or not at all. -/
def deleteTripCascade (s : Store) (tripId : String) : Store :=
  { s with
    trips := s.trips.filter (fun t => ¬ t.id = tripId),
    expenses := s.expenses.filter (fun e => ¬ e.tripId = tripId) }

/-- Embeds `initializeDb` from src/db.js: one readwrite transaction over `meta`
and `settings` that checks each of the three rows independently and seeds
only the absent ones. -/
def initDb (s : Store) : Store :=
  { s with
    schemaVersion :=
      match s.schemaVersion with
      | some v => some v
      | none => some SCHEMA_VERSION,
    categories :=
      match s.categories with
      | some c => some c
      | none => some defaultCategories,
    paymentMethods :=
      match s.paymentMethods with
      | some p => some p
      | none => some defaultPaymentMethods }

/-- Embeds `saveSettings` from src/db.js: overwrite both settings rows. -/
def saveSettings (s : Store) (categories paymentMethods : List String) : Store :=
  { s with categories := some categories, paymentMethods := some paymentMethods }

/-- The `config` object of a backup payload; a `none` field models an
absent (or falsy) property. -/
structure RestoreConfig where
  categories : Option (List String)
  paymentMethods : Option (List String)
deriving DecidableEq, Repr

/-- A parsed backup payload.  `trips = none` / `expenses = none` model a
property that is absent or not an array (`Array.isArray` false). -/
structure RestorePayload where
  schemaVersion : Option String
  config : Option RestoreConfig
  trips : Option (List Trip)
  expenses : Option (List Expense)
deriving DecidableEq, Repr

/-- Embeds `restoreBackup` from src/db.js: one readwrite transaction over all four
stores that clears them, writes the schema marker (payload value or
default), writes both settings rows (payload config values or defaults) and
re-puts every trip and expense of the payload. -/
def restoreBackup (_s : Store) (p : RestorePayload) : Store :=
  { schemaVersion := some (p.schemaVersion.getD SCHEMA_VERSION),
    categories := some (((p.config.bind RestoreConfig.categories)).getD defaultCategories),
    paymentMethods := some (((p.config.bind RestoreConfig.paymentMethods)).getD defaultPaymentMethods),
    trips := (p.trips.getD []).foldl (fun acc t => putByKey Trip.id t acc) [],
    expenses := (p.expenses.getD []).foldl (fun acc e => putByKey Expense.id e acc) [] }

/-- The shape check of `handleRestoreFileChange` (src/unnamed/part_000):
the payload becomes `state.pendingRestore` only when both `trips` and
`expenses` are arrays. -/
def restoreShapeOk (p : RestorePayload) : Bool :=
  p.trips.isSome && p.expenses.isSome

/-- The restore pipeline: `handleRestoreFileChange` validates the payload
shape and only a payload that passed becomes `pendingRestore`; `applyRestore`
then runs `restoreBackup` on it.  A payload that fails the shape check is
rejected with the thrown message and no store operation runs, so the store
component of the result is the unchanged input store. -/
def restoreFlow (s : Store) (p : RestorePayload) : Store × Option String :=
  if restoreShapeOk p then (restoreBackup s p, none)
  else (s, some "Backup must contain trips and expenses arrays.")

/-- Embeds `validateTripForm` from src/unnamed/part_000: the first failing check
yields its message, `none` means the form is valid.  A falsy string field
is the empty string; date comparison is the lexicographic string order. -/
def validateTripForm (p : Trip) : Option String :=
  if p.name = "" ∨ p.name.length > 50 then some "Trip name is required (1-50 chars)."
  else if p.startDate = "" ∨ p.endDate = "" then some "Start and end date are required."
  else if p.startDate > p.endDate then some "Start date must be before or equal to end date."
  else if p.baseCurrency = "" then some "Base currency is required."
  else if ¬ p.currencies.contains p.baseCurrency then some "Currencies must include base currency."
  else if p.budgetEnabled ∧ ¬ p.budgetAmountBase > 0 then
    some "Budget amount is required when budget is enabled."
  else none

/-- Embeds `handleTripSubmit` from src/unnamed/part_000, applied to the collected
form record.  `editingTripId` is `state.editingTripId`.  On a rejected
submission no store call runs, so the returned store is the input store
paired with the status message; on success `upsertTrip` runs (with
`createdAt` kept from the old record when editing). -/
def handleTripSubmit (s : Store) (newTrip : Trip) (editingTripId : Option String) :
    Store × Option String :=
  match validateTripForm newTrip with
  | some err => (s, some err)
  | none =>
    match editingTripId with
    | some tid =>
      match getTripById s tid with
      | some old =>
        if old.baseCurrency ≠ newTrip.baseCurrency ∧ getExpensesByTrip s tid ≠ [] then
          (s, some "Base currency cannot be changed once expenses exist for this trip in v1.")
        else
          (upsertTrip s { newTrip with
            createdAt := if old.createdAt ≠ 0 then old.createdAt else newTrip.createdAt }, none)
      | none => (upsertTrip s newTrip, none)
    | none => (upsertTrip s newTrip, none)

/-- The raw expense form fields read by `collectExpenseFormData`:
`amountOriginal` and `fx` are the `Number(...)` of the inputs, the rest are
the raw strings. -/
structure ExpenseForm where
  dateTime : String
  amountOriginal : ℚ
  currency : String
  fx : ℚ
  category : String
  payment : String
  note : String
  paidBy : String
  location : String
  tagsInput : String
deriving DecidableEq, Repr

/-- The tag pipeline of `collectExpenseFormData`: split on commas, trim,
drop empties, keep the first 10, cut each to 24 characters. -/
def parseTags (input : String) : List String :=
  ((((jsSplitOn input ',').map jsTrim).filter (fun v => v ≠ "")).take 10).map
    (fun t => jsSlice t 24)

/-- Embeds `collectExpenseFormData` from src/unnamed/part_000: fixes
`fxRateToBase = 1` for a base-currency expense, recomputes `amountBase`
through `roundBaseAmount`, and truncates the tag list.  `id` is the
editing id or fresh uid, `now` is `Date.now()`, `nowStr` is
`nowLocalDateTimeInput()` (used when the date input is empty). -/
def collectExpenseFormData (form : ExpenseForm) (trip : Trip) (id : String)
    (now : ℚ) (nowStr : String) : Expense :=
  let fxRateToBase : ℚ := if form.currency = trip.baseCurrency then 1 else form.fx
  { id := id,
    tripId := trip.id,
    dateTime := if form.dateTime = "" then nowStr else form.dateTime,
    amountOriginal := form.amountOriginal,
    currency := form.currency,
    fxRateToBase := fxRateToBase,
    amountBase := roundBaseAmount (form.amountOriginal * fxRateToBase) trip.baseCurrency,
    category := form.category,
    payment := form.payment,
    note := jsTrim form.note,
    paidBy := form.paidBy,
    location := jsTrim form.location,
    tags := parseTags form.tagsInput,
    createdAt := now,
    updatedAt := now }

/-- Embeds `validateExpense` from src/unnamed/part_000: the first failing check
yields its message, `none` means valid. -/
def validateExpense (exp : Expense) (trip : Trip) : Option String :=
  if ¬ exp.amountOriginal > 0 then some "Amount must be greater than 0."
  else if exp.currency = "" then some "Currency is required."
  else if exp.dateTime = "" then some "Date/time is required."
  else if exp.category = "" then some "Category is required."
  else if exp.payment = "" then some "Payment method is required."
  else if exp.currency ≠ trip.baseCurrency ∧ ¬ exp.fxRateToBase > 0 then
    some "FX rate must be greater than 0 for non-base currency."
  else if exp.note.length > 120 then some "Note must be 120 chars or less."
  else if exp.location.length > 80 then some "Location must be 80 chars or less."
  else if exp.tags.length > 10 then some "Maximum 10 tags."
  else none

/-- The settings-form line pipeline (settingsForm submit handler in
`bindEvents`): split the textarea on newlines, trim, drop empties. -/
def parseLines (input : String) : List String :=
  ((jsSplitOn input '\n').map jsTrim).filter (fun v => v ≠ "")

/-- The settingsForm submit handler from src/unnamed/part_000 `bindEvents`:
an empty parsed categories or payment-methods list is rejected before
`saveSettings` is called, leaving the store untouched. -/
def settingsSubmit (s : Store) (categoriesInput paymentsInput : String) :
    Store × Option String :=
  let categories := parseLines categoriesInput
  let payments := parseLines paymentsInput
  if categories.isEmpty ∨ payments.isEmpty then
    (s, some "Categories and payment methods must not be empty.")
  else (saveSettings s categories payments, none)

/-- The UI filter state (`state.filters`). -/
structure Filters where
  startDate : String
  endDate : String
  category : String
  payment : String
  search : String
deriving DecidableEq, Repr

/-- First list leads the second (character lists). -/
def chLeads : List Char → List Char → Bool
  | [], _ => true
  | _ :: _, [] => false
  | a :: as, b :: bs => a == b && chLeads as bs

/-- Tests whether `pat` occurs contiguously inside `s` (character lists). -/
def chHasSub (pat : List Char) : List Char → Bool
  | [] => chLeads pat []
  | c :: rest => chLeads pat (c :: rest) || chHasSub pat rest

/-- JS `s.includes(pat)` on strings. -/
def strIncludes (s pat : String) : Bool := chHasSub pat.data s.data

/-- The date portion of a `dateTime` value: `dateTime.slice(0, 10)`. -/
def dayOf (dateTime : String) : String := jsSlice dateTime 10

/-- The predicate of `filteredExpenses` from src/unnamed/part_000: date
range on the date portion, exact category and payment unless `All`, and a
case-insensitive substring search over note, location and tags joined with
spaces. -/
def matchesFilters (f : Filters) (exp : Expense) : Bool :=
  let search := (jsTrim f.search).toLower
  (decide (f.startDate = "") || ! decide (dayOf exp.dateTime < f.startDate)) &&
  (decide (f.endDate = "") || ! decide (f.endDate < dayOf exp.dateTime)) &&
  (decide (f.category = "All") || decide (exp.category = f.category)) &&
  (decide (f.payment = "All") || decide (exp.payment = f.payment)) &&
  (decide (search = "") ||
    strIncludes (String.intercalate " " ([exp.note, exp.location] ++ exp.tags)).toLower search)

/-- Embeds `filteredExpenses` from src/unnamed/part_000, over an explicit expense
list and filter state. -/
def filteredExpenses (f : Filters) (expenses : List Expense) : List Expense :=
  expenses.filter (matchesFilters f)

/-- The dashboard grand total: `items.reduce((sum, x) => sum + Number(x.amountBase || 0), 0)`. -/
def totalBase (items : List Expense) : ℚ :=
  items.foldl (fun sum x => sum + x.amountBase) 0

/-- One `map.set(k, (map.get(k) || 0) + v)` step on an insertion-ordered
association list, as a JS `Map` behaves. -/
def bump (k : String) (v : ℚ) : List (String × ℚ) → List (String × ℚ)
  | [] => [(k, v)]
  | (k', v') :: rest => if k' = k then (k', v' + v) :: rest else (k', v') :: bump k v rest

/-- Stable insertion for the descending-by-total sort
`(a, b) => b[1] - a[1]` of `aggregateBy`. -/
def insertDescBySnd (x : String × ℚ) : List (String × ℚ) → List (String × ℚ)
  | [] => [x]
  | y :: ys => if x.2 < y.2 then y :: insertDescBySnd x ys else x :: y :: ys

/-- Sort by total descending, ties keeping encounter order. -/
def sortDescBySnd : List (String × ℚ) → List (String × ℚ)
  | [] => []
  | a :: as => insertDescBySnd a (sortDescBySnd as)

/-- Insertion for the ascending-by-day sort
`(a, b) => (a[0] < b[0] ? -1 : 1)` of `aggregateByDay`. -/
def insertAscByFst (x : String × ℚ) : List (String × ℚ) → List (String × ℚ)
  | [] => [x]
  | y :: ys => if y.1 < x.1 then y :: insertAscByFst x ys else x :: y :: ys

/-- Sort by key ascending. -/
def sortAscByFst : List (String × ℚ) → List (String × ℚ)
  | [] => []
  | a :: as => insertAscByFst a (sortAscByFst as)

/-- Embeds `aggregateBy` from src/unnamed/part_000: fold the items into a JS-Map
style association list keyed by `item[key] || 'Unknown'`, summing
`Number(item.amountBase || 0)`, then sort by total descending. -/
def aggregateBy (items : List Expense) (key : Expense → String) : List (String × ℚ) :=
  sortDescBySnd (items.foldl
    (fun acc item => bump (if key item = "" then "Unknown" else key item) item.amountBase acc) [])

/-- Embeds `aggregateByDay` from src/unnamed/part_000: fold the items keyed by the
date portion of `dateTime`, then sort by day ascending. -/
def aggregateByDay (items : List Expense) : List (String × ℚ) :=
  sortAscByFst (items.foldl
    (fun acc item => bump (dayOf item.dateTime) item.amountBase acc) [])

/-- Sum of the per-key totals of an aggregation result. -/
def sumSnd (rows : List (String × ℚ)) : ℚ := (rows.map Prod.snd).sum

/-- The elapsed-days computation of `renderDashboard` (budget branch), on
millisecond timestamps: clamp `min(now, tripEnd) - tripStart` at 0, floor
the day count and add 1, then clamp at 1. -/
def daysElapsed (now tripStartMs tripEndMs : ℚ) : ℤ :=
  let endForElapsed := min now tripEndMs
  let elapsedMs := max (endForElapsed - tripStartMs) 0
  max (⌊elapsedMs / 86400000⌋ + 1) 1

/-- The spec's elapsed-days formula:
`floor((min(now, tripEnd) - tripStart) in days) + 1`, floored at 1. -/
def daysElapsedSpec (now tripStartMs tripEndMs : ℚ) : ℤ :=
  max (⌊(min now tripEndMs - tripStartMs) / 86400000⌋ + 1) 1

/-- Embeds `avgPerDay` of `renderDashboard`: `total / daysElapsed`. -/
def avgPerDay (total now tripStartMs tripEndMs : ℚ) : ℚ :=
  total / (daysElapsed now tripStartMs tripEndMs : ℚ)

/-- Budget remaining of `renderDashboard`:
`Number(trip.budgetAmountBase || 0) - total` (on ℚ, `x || 0` is `x`). -/
def budgetRemaining (trip : Trip) (total : ℚ) : ℚ :=
  trip.budgetAmountBase - total

end TravelExpense

namespace TravelExpense

theorem roundBaseAmount_eq_halfUp (raw : ℚ) (c : String) :
    roundBaseAmount raw c = roundHalfUpTo raw (decimalsFor c) := by
  unfold roundBaseAmount roundHalfUpTo decimalsFor jsRound
  by_cases h : c = "JPY"
  · simp [h]
  · simp only [h, if_false]
    norm_num

/-- Half-up rounding is exact on a value already expressible with `d`
decimal places. -/
theorem roundHalfUpTo_exact (a : ℚ) (d : Nat) (n : ℤ) (hn : a * 10 ^ d = n) :
    roundHalfUpTo a d = a := by
  have hpow : (10 : ℚ) ^ d ≠ 0 := pow_ne_zero d (by norm_num)
  unfold roundHalfUpTo
  rw [hn, add_comm, Int.floor_add_int]
  norm_num
  rw [← hn, mul_div_assoc, div_self hpow, mul_one]

/-- The scenario trip of the spec: base currency JPY, budget 100000 enabled. -/
def jpyTrip : Trip :=
  { id := "t1", name := "Tokyo", startDate := "2026-01-01", endDate := "2026-01-10",
    baseCurrency := "JPY", currencies := ["JPY", "USD"], budgetEnabled := true,
    budgetAmountBase := 100000, dailyBudgetAmountBase := none, createdAt := 1 }

/-- The scenario expense form: 50 USD at rate 150 on the JPY trip. -/
def usdOnJpyForm : ExpenseForm :=
  { dateTime := "2026-01-02T12:00", amountOriginal := 50, currency := "USD", fx := 150,
    category := "Food & drinks", payment := "Cash", note := "", paidBy := "Me",
    location := "", tagsInput := "" }

/-- The scenario expense as stored. -/
def jpyScenarioExpense : Expense :=
  collectExpenseFormData usdOnJpyForm jpyTrip "e1" 0 "2026-01-02T12:00"

/-- C1: after `deleteTripCascade` the trip record is absent and zero
expense records with that `tripId` remain; the operation is one atomic
state transition, so the trip row and its expense rows disappear together. -/
theorem deleteTripCascade_complete (s : Store) (tripId : String) :
    getTripById (deleteTripCascade s tripId) tripId = none ∧
    getExpensesByTrip (deleteTripCascade s tripId) tripId = [] := by
  constructor
  · unfold getTripById deleteTripCascade
    simp only [List.find?_eq_none, List.mem_filter, decide_eq_true_eq]
    intro t ht
    simpa using ht.2
  · unfold getExpensesByTrip deleteTripCascade
    simp only [List.filter_filter]
    apply List.filter_eq_nil_iff.mpr
    intro e _
    simp

/-- C2: the stored base amount is the raw product rounded half-up to the
base currency's decimal places (0 for the zero-decimal currency JPY, 2
otherwise); in particular 50 USD at rate 150 on a JPY trip stores
`amountBase = 7500`, and with the enabled budget of 100000 the remaining
budget is 92500. -/
theorem convert_rounds_halfUp_and_jpy_scenario (amount fx : ℚ) (c : String) :
    roundBaseAmount (amount * fx) c = roundHalfUpTo (amount * fx) (decimalsFor c) ∧
    jpyScenarioExpense.amountBase = 7500 ∧
    budgetRemaining jpyTrip (totalBase [jpyScenarioExpense]) = 92500 := by
  have hbase : jpyScenarioExpense.amountBase = 7500 := by
    have h : jpyScenarioExpense.amountBase = roundBaseAmount (50 * 150) "JPY" := rfl
    rw [h]
    unfold roundBaseAmount jsRound
    norm_num
  refine ⟨roundBaseAmount_eq_halfUp (amount * fx) c, hbase, ?_⟩
  unfold budgetRemaining totalBase
  rw [show jpyTrip.budgetAmountBase = 100000 from rfl]
  simp [hbase]
  norm_num

/-- A base-currency expense whose amount is not a whole yen: the code
rounds it. -/
def jpyHalfForm : ExpenseForm :=
  { dateTime := "2026-01-02T09:00", amountOriginal := 1/2, currency := "JPY", fx := 1,
    category := "Misc", payment := "Cash", note := "", paidBy := "Me",
    location := "", tagsInput := "" }

/-- C3 counterexample: an expense in the trip's base currency (JPY) with
positive `amountOriginal = 1/2` is stored with `fxRateToBase = 1` but
`amountBase = 1 ≠ 1/2`, refuting exact equality of `amountBase` and
`amountOriginal` for every positive amount. -/
theorem base_currency_exact_equality_fails :
    (collectExpenseFormData jpyHalfForm jpyTrip "e2" 0 "x").currency = jpyTrip.baseCurrency ∧
    0 < (collectExpenseFormData jpyHalfForm jpyTrip "e2" 0 "x").amountOriginal ∧
    (collectExpenseFormData jpyHalfForm jpyTrip "e2" 0 "x").fxRateToBase = 1 ∧
    (collectExpenseFormData jpyHalfForm jpyTrip "e2" 0 "x").amountBase ≠
      (collectExpenseFormData jpyHalfForm jpyTrip "e2" 0 "x").amountOriginal := by
  refine ⟨rfl, by norm_num [collectExpenseFormData, jpyHalfForm], rfl, ?_⟩
  show roundBaseAmount (1/2 * 1) "JPY" ≠ (1/2 : ℚ)
  unfold roundBaseAmount jsRound
  norm_num

/-- C3 (amended): for a base-currency expense the stored `fxRateToBase` is
exactly 1 and `amountBase` is `amountOriginal` rounded per the base
currency; it equals `amountOriginal` exactly whenever the amount is
already expressible at the base currency's decimal precision. -/
theorem base_currency_fx_one_amountBase_rounded (form : ExpenseForm) (trip : Trip)
    (id : String) (now : ℚ) (nowStr : String)
    (h : form.currency = trip.baseCurrency) :
    (collectExpenseFormData form trip id now nowStr).fxRateToBase = 1 ∧
    (collectExpenseFormData form trip id now nowStr).amountBase =
      roundBaseAmount form.amountOriginal trip.baseCurrency ∧
    ((∃ n : ℤ, form.amountOriginal * 10 ^ decimalsFor trip.baseCurrency = n) →
      (collectExpenseFormData form trip id now nowStr).amountBase = form.amountOriginal) := by
  have hab : (collectExpenseFormData form trip id now nowStr).amountBase =
      roundBaseAmount form.amountOriginal trip.baseCurrency := by
    unfold collectExpenseFormData
    simp [h]
  refine ⟨by unfold collectExpenseFormData; simp [h], hab, ?_⟩
  rintro ⟨n, hn⟩
  rw [hab, roundBaseAmount_eq_halfUp]
  exact roundHalfUpTo_exact form.amountOriginal (decimalsFor trip.baseCurrency) n hn

/-- A base-currency expense at whole-yen precision. -/
def jpyWholeForm : ExpenseForm :=
  { dateTime := "2026-01-03T09:00", amountOriginal := 50, currency := "JPY", fx := 1,
    category := "Misc", payment := "Cash", note := "", paidBy := "Me",
    location := "", tagsInput := "" }

/-- Witness for the amended C3 at a concrete base-currency expense. -/
theorem base_currency_fx_one_witness :
    (collectExpenseFormData jpyWholeForm jpyTrip "e3" 0 "x").fxRateToBase = 1 ∧
    (collectExpenseFormData jpyWholeForm jpyTrip "e3" 0 "x").amountBase =
      (collectExpenseFormData jpyWholeForm jpyTrip "e3" 0 "x").amountOriginal := by
  have h := base_currency_fx_one_amountBase_rounded jpyWholeForm jpyTrip "e3" 0 "x" rfl
  refine ⟨h.1, ?_⟩
  have hexact := h.2.2 ⟨50, by norm_num [jpyWholeForm, jpyTrip, decimalsFor]⟩
  exact hexact

/-- C4: a restore payload whose `trips` or `expenses` is absent or not an
array is rejected by the shape check before any store operation runs: the
pipeline returns the validation message and the unchanged input store (no
record kind cleared). -/
theorem restore_bad_shape_rejected (s : Store) (p : RestorePayload)
    (h : p.trips = none ∨ p.expenses = none) :
    restoreFlow s p = (s, some "Backup must contain trips and expenses arrays.") := by
  unfold restoreFlow restoreShapeOk
  rcases h with h | h <;> simp [h]

/-- A populated store used by the concrete witnesses. -/
def sampleStore : Store :=
  { schemaVersion := some "1.0.0", categories := some ["Misc"],
    paymentMethods := some ["Cash"], trips := [jpyTrip], expenses := [] }

/-- A payload missing its `trips` array. -/
def badPayload : RestorePayload :=
  { schemaVersion := some "1.0.0", config := none, trips := none, expenses := some [] }

/-- Witness for C4 at a concrete store and payload. -/
theorem restore_bad_shape_rejected_witness :
    restoreFlow sampleStore badPayload =
      (sampleStore, some "Backup must contain trips and expenses arrays.") :=
  restore_bad_shape_rejected sampleStore badPayload (Or.inl rfl)

/-- C5: the bootstrap is idempotent and each of the three seeded rows is
checked independently: a `schemaVersion`, `categories` or `paymentMethods`
row that already exists is left exactly as it was, whatever the state of
the other two rows, and a second run changes nothing. -/
theorem initDb_idempotent_preserves_existing (s : Store) :
    (∀ v, s.schemaVersion = some v → (initDb s).schemaVersion = some v) ∧
    (∀ c, s.categories = some c → (initDb s).categories = some c) ∧
    (∀ p, s.paymentMethods = some p → (initDb s).paymentMethods = some p) ∧
    initDb (initDb s) = initDb s := by
  refine ⟨?_, ?_, ?_, ?_⟩
  · intro v hv
    unfold initDb
    simp [hv]
  · intro c hc
    unfold initDb
    simp [hc]
  · intro p hp
    unfold initDb
    simp [hp]
  · unfold initDb
    cases s.schemaVersion <;> cases s.categories <;> cases s.paymentMethods <;> rfl

/-- A store whose three seeded rows all hold user-edited values. -/
def seededStore : Store :=
  { schemaVersion := some "2.0.0", categories := some ["Gear"],
    paymentMethods := some ["Card"], trips := [], expenses := [] }

/-- Witness for C5 at a concrete already-seeded store. -/
theorem initDb_idempotent_witness :
    (initDb seededStore).schemaVersion = some "2.0.0" ∧
    (initDb seededStore).categories = some ["Gear"] ∧
    (initDb seededStore).paymentMethods = some ["Card"] ∧
    initDb (initDb seededStore) = initDb seededStore :=
  ⟨(initDb_idempotent_preserves_existing seededStore).1 "2.0.0" rfl,
   (initDb_idempotent_preserves_existing seededStore).2.1 ["Gear"] rfl,
   (initDb_idempotent_preserves_existing seededStore).2.2.1 ["Card"] rfl,
   (initDb_idempotent_preserves_existing seededStore).2.2.2⟩

/-- C6: a settings submission whose parsed categories or payment-methods
list is empty is rejected before any write: the handler returns the error
message and the unchanged store, so both stored lists stay what they were. -/
theorem settings_empty_list_rejected (s : Store) (categoriesInput paymentsInput : String)
    (h : parseLines categoriesInput = [] ∨ parseLines paymentsInput = []) :
    settingsSubmit s categoriesInput paymentsInput =
      (s, some "Categories and payment methods must not be empty.") := by
  unfold settingsSubmit
  rcases h with h | h <;> simp [h]

/-- Witness for C6: an empty payment-methods textarea is rejected and the
store is unchanged. -/
theorem settings_empty_list_rejected_witness :
    settingsSubmit sampleStore "Food\nMisc" "  \n " =
      (sampleStore, some "Categories and payment methods must not be empty.") :=
  settings_empty_list_rejected sampleStore "Food\nMisc" "  \n " (Or.inr (by decide))

/-- C7: editing a trip that already has at least one expense while changing
its base currency is rejected: `handleTripSubmit` returns the unchanged
store (so the trip and all its expenses keep their prior values) together
with a status message. -/
theorem base_currency_change_rejected (s : Store) (form : Trip) (tid : String) (old : Trip)
    (hold : getTripById s tid = some old)
    (hbc : old.baseCurrency ≠ form.baseCurrency)
    (hexp : getExpensesByTrip s tid ≠ []) :
    (handleTripSubmit s form (some tid)).1 = s ∧
    ((handleTripSubmit s form (some tid)).2).isSome = true := by
  cases hv : validateTripForm form
  · simp [handleTripSubmit, hv, hold, hbc, hexp]
  · simp [handleTripSubmit, hv]

/-- A stored expense on the sample trip, used by the C7 witness. -/
def sampleExpense : Expense :=
  { id := "e9", tripId := "t1", dateTime := "2026-01-02T12:00", amountOriginal := 50,
    currency := "USD", fxRateToBase := 150, amountBase := 7500, category := "Misc",
    payment := "Cash", note := "", paidBy := "Me", location := "", tags := [],
    createdAt := 2, updatedAt := 2 }

/-- A store holding the JPY trip and one of its expenses. -/
def storeWithExpense : Store :=
  { schemaVersion := some "1.0.0", categories := some ["Misc"],
    paymentMethods := some ["Cash"], trips := [jpyTrip], expenses := [sampleExpense] }

/-- The edit form for the JPY trip with its base currency changed to USD. -/
def usdBaseForm : Trip :=
  { jpyTrip with baseCurrency := "USD", currencies := ["JPY", "USD"] }

/-- Witness for C7 at a concrete store, trip and edit form. -/
theorem base_currency_change_rejected_witness :
    (handleTripSubmit storeWithExpense usdBaseForm (some "t1")).1 = storeWithExpense ∧
    ((handleTripSubmit storeWithExpense usdBaseForm (some "t1")).2).isSome = true :=
  base_currency_change_rejected storeWithExpense usdBaseForm "t1" jpyTrip
    (by decide) (by decide) (by decide)

theorem sumSnd_nil : sumSnd [] = 0 := rfl

theorem sumSnd_cons (x : String × ℚ) (l : List (String × ℚ)) :
    sumSnd (x :: l) = x.2 + sumSnd l := by
  unfold sumSnd
  simp

theorem sumSnd_bump (k : String) (v : ℚ) (acc : List (String × ℚ)) :
    sumSnd (bump k v acc) = sumSnd acc + v := by
  induction acc with
  | nil => simp [bump, sumSnd]
  | cons y ys ih =>
    obtain ⟨a, b⟩ := y
    unfold bump
    by_cases h : a = k
    · rw [if_pos h, sumSnd_cons, sumSnd_cons]
      dsimp only
      ring
    · rw [if_neg h, sumSnd_cons, sumSnd_cons, ih]
      ring

theorem sumSnd_insertDescBySnd (x : String × ℚ) (l : List (String × ℚ)) :
    sumSnd (insertDescBySnd x l) = x.2 + sumSnd l := by
  induction l with
  | nil => simp [insertDescBySnd, sumSnd]
  | cons y ys ih =>
    unfold insertDescBySnd
    by_cases h : x.2 < y.2
    · rw [if_pos h, sumSnd_cons, ih, sumSnd_cons]
      ring
    · rw [if_neg h, sumSnd_cons, sumSnd_cons]

theorem sumSnd_sortDescBySnd (l : List (String × ℚ)) :
    sumSnd (sortDescBySnd l) = sumSnd l := by
  induction l with
  | nil => rfl
  | cons a as ih =>
    unfold sortDescBySnd
    rw [sumSnd_insertDescBySnd, ih, sumSnd_cons]

theorem sumSnd_insertAscByFst (x : String × ℚ) (l : List (String × ℚ)) :
    sumSnd (insertAscByFst x l) = x.2 + sumSnd l := by
  induction l with
  | nil => simp [insertAscByFst, sumSnd]
  | cons y ys ih =>
    unfold insertAscByFst
    by_cases h : y.1 < x.1
    · rw [if_pos h, sumSnd_cons, ih, sumSnd_cons]
      ring
    · rw [if_neg h, sumSnd_cons, sumSnd_cons]

theorem sumSnd_sortAscByFst (l : List (String × ℚ)) :
    sumSnd (sortAscByFst l) = sumSnd l := by
  induction l with
  | nil => rfl
  | cons a as ih =>
    unfold sortAscByFst
    rw [sumSnd_insertAscByFst, ih, sumSnd_cons]

theorem foldl_add_amountBase (items : List Expense) (a : ℚ) :
    items.foldl (fun sum x => sum + x.amountBase) a =
      a + (items.map Expense.amountBase).sum := by
  induction items generalizing a with
  | nil => simp
  | cons x xs ih =>
    simp only [List.foldl_cons, List.map_cons, List.sum_cons]
    rw [ih]
    ring

theorem totalBase_eq_sum (items : List Expense) :
    totalBase items = (items.map Expense.amountBase).sum := by
  unfold totalBase
  rw [foldl_add_amountBase]
  ring

theorem foldl_bump_sum (g : Expense → String) (items : List Expense)
    (acc : List (String × ℚ)) :
    sumSnd (items.foldl (fun acc item => bump (g item) item.amountBase acc) acc) =
      sumSnd acc + (items.map Expense.amountBase).sum := by
  induction items generalizing acc with
  | nil => simp
  | cons x xs ih =>
    simp only [List.foldl_cons, List.map_cons, List.sum_cons]
    rw [ih, sumSnd_bump]
    ring

/-- C8: for any filter combination, the per-key totals of the category
breakdown, the payment breakdown and the daily series each sum to the
unsegmented grand total of the filtered collection. -/
theorem aggregation_totals_match (f : Filters) (expenses : List Expense) :
    sumSnd (aggregateBy (filteredExpenses f expenses) Expense.category) =
      totalBase (filteredExpenses f expenses) ∧
    sumSnd (aggregateBy (filteredExpenses f expenses) Expense.payment) =
      totalBase (filteredExpenses f expenses) ∧
    sumSnd (aggregateByDay (filteredExpenses f expenses)) =
      totalBase (filteredExpenses f expenses) := by
  generalize filteredExpenses f expenses = items
  refine ⟨?_, ?_, ?_⟩
  · unfold aggregateBy
    rw [sumSnd_sortDescBySnd,
      foldl_bump_sum (fun item => if Expense.category item = "" then "Unknown" else Expense.category item),
      totalBase_eq_sum, sumSnd_nil, zero_add]
  · unfold aggregateBy
    rw [sumSnd_sortDescBySnd,
      foldl_bump_sum (fun item => if Expense.payment item = "" then "Unknown" else Expense.payment item),
      totalBase_eq_sum, sumSnd_nil, zero_add]
  · unfold aggregateByDay
    rw [sumSnd_sortAscByFst,
      foldl_bump_sum (fun item => dayOf item.dateTime),
      totalBase_eq_sum, sumSnd_nil, zero_add]

/-- C9: the dashboard's elapsed-days count equals the spec formula
`floor((min(now, tripEnd) - tripStart) in days) + 1` floored at 1, it is
never below 1 (also when now is before the trip start or past its end),
and the average per day is the total divided by it. -/
theorem avg_per_day_formula (total now tripStartMs tripEndMs : ℚ) :
    daysElapsed now tripStartMs tripEndMs = daysElapsedSpec now tripStartMs tripEndMs ∧
    1 ≤ daysElapsed now tripStartMs tripEndMs ∧
    avgPerDay total now tripStartMs tripEndMs =
      total / (daysElapsedSpec now tripStartMs tripEndMs : ℚ) := by
  have key : daysElapsed now tripStartMs tripEndMs = daysElapsedSpec now tripStartMs tripEndMs := by
    unfold daysElapsed daysElapsedSpec
    dsimp only
    rcases le_or_lt 0 (min now tripEndMs - tripStartMs) with h | h
    · rw [max_eq_left h]
    · rw [max_eq_right h.le]
      have hneg : (min now tripEndMs - tripStartMs) / 86400000 < 0 :=
        div_neg_of_neg_of_pos h (by norm_num)
      have h1 : ⌊(min now tripEndMs - tripStartMs) / 86400000⌋ < 0 :=
        Int.floor_lt.mpr (by push_cast; exact hneg)
      rw [zero_div, Int.floor_zero, max_eq_right (by omega : ⌊(min now tripEndMs - tripStartMs) / 86400000⌋ + 1 ≤ 1)]
      norm_num
  refine ⟨key, le_max_right _ 1, ?_⟩
  unfold avgPerDay
  rw [key]

theorem parseTags_length_le (input : String) : (parseTags input).length ≤ 10 := by
  unfold parseTags
  rw [List.length_map]
  exact List.length_take_le 10 _

theorem parseTags_each_le (input : String) :
    ∀ t ∈ parseTags input, t.length ≤ 24 := by
  intro t ht
  unfold parseTags at ht
  rw [List.mem_map] at ht
  obtain ⟨u, _, rfl⟩ := ht
  show (String.mk (u.data.take 24)).length ≤ 24
  have : (String.mk (u.data.take 24)).length = (u.data.take 24).length := rfl
  rw [this, List.length_take]
  exact min_le_left 24 _

/-- C10: the stored tag list of a submitted expense has at most 10 entries
of at most 24 characters each, because `collectExpenseFormData` truncates
before validation; hence the validator can never return the
`Maximum 10 tags.` error for a collected expense. -/
theorem tags_truncated_before_validation (form : ExpenseForm) (trip : Trip) (id : String)
    (now : ℚ) (nowStr : String) :
    (collectExpenseFormData form trip id now nowStr).tags.length ≤ 10 ∧
    (∀ t ∈ (collectExpenseFormData form trip id now nowStr).tags, t.length ≤ 24) ∧
    validateExpense (collectExpenseFormData form trip id now nowStr) trip ≠
      some "Maximum 10 tags." := by
  have htags : (collectExpenseFormData form trip id now nowStr).tags = parseTags form.tagsInput := rfl
  have hlen : (collectExpenseFormData form trip id now nowStr).tags.length ≤ 10 := by
    rw [htags]
    exact parseTags_length_le form.tagsInput
  refine ⟨hlen, by rw [htags]; exact parseTags_each_le form.tagsInput, ?_⟩
  intro hcontra
  unfold validateExpense at hcontra
  split_ifs at hcontra with h1 h2 h3 h4 h5 h6 h7 h8 h9
  all_goals first
    | exact absurd hcontra (by decide)
    | omega

/-- An expense form with one short tag, for the C10 witness. -/
def taggedForm : ExpenseForm :=
  { dateTime := "2026-01-04T09:00", amountOriginal := 10, currency := "JPY", fx := 1,
    category := "Misc", payment := "Cash", note := "", paidBy := "Me",
    location := "", tagsInput := "food" }

/-- Witness for C10 at a concrete expense form. -/
theorem tags_truncated_before_validation_witness :
    (collectExpenseFormData taggedForm jpyTrip "e5" 0 "x").tags.length ≤ 10 ∧
    ("food" : String).length ≤ 24 ∧
    validateExpense (collectExpenseFormData taggedForm jpyTrip "e5" 0 "x") jpyTrip ≠
      some "Maximum 10 tags." :=
  ⟨(tags_truncated_before_validation taggedForm jpyTrip "e5" 0 "x").1,
   (tags_truncated_before_validation taggedForm jpyTrip "e5" 0 "x").2.1 "food" (by decide),
   (tags_truncated_before_validation taggedForm jpyTrip "e5" 0 "x").2.2⟩

end TravelExpense
